import Mathlib

/-!
Shallow embedding of `analytical/templatetags/google_analytics_js.py`
(django-analytical, Google Analytics analytics.js template tag).

Settings read through `getattr(settings, ..., default)` are modelled as
fields of a `Settings` structure (an `Option` field is `none` when the
setting is unset, i.e. when the Python default `None`/`False` applies).
Per-render template context data and the results of the external
collaborators `get_domain`, `get_identity` and `is_internal_ip` are
modelled as fields of a `Context` structure.  Numeric settings are
modelled as rationals (`decimal.Decimal` values are exact fractions);
custom-variable names and values are modelled as strings, matching the
documented use of the template context keys.  `AnalyticalException` is
modelled as the `Except.error` branch carrying the message string.
Digits in the Python `float()` grammar are modelled as ASCII digits.
-/

namespace GoogleAnalyticsJs

/-- Tracking style constant `TRACK_SINGLE_DOMAIN = 1` from the source module. -/
def TRACK_SINGLE_DOMAIN : Nat := 1

/-- Tracking style constant `TRACK_MULTIPLE_SUBDOMAINS = 2` from the source module. -/
def TRACK_MULTIPLE_SUBDOMAINS : Nat := 2

/-- Tracking style constant `TRACK_MULTIPLE_DOMAINS = 3` from the source module. -/
def TRACK_MULTIPLE_DOMAINS : Nat := 3

/-- Snapshot of the Django settings the node reads. `property_id` is
`GOOGLE_ANALYTICS_JS_PROPERTY_ID` (set on the node in `__init__`),
`tracking_style` is `GOOGLE_ANALYTICS_TRACKING_STYLE` (default
`TRACK_SINGLE_DOMAIN`), the three rationals are the numeric settings
(`none` models the Python default `False`, i.e. unset), and the two
booleans are `GOOGLE_ANALYTICS_ANONYMIZE_IP` and
`GOOGLE_ANALYTICS_DISPLAY_ADVERTISING`. -/
structure Settings where
  property_id : Option String
  tracking_style : Nat
  site_speed_sample_rate : Option ℚ
  sample_rate : Option ℚ
  cookie_expiration : Option ℚ
  anonymize_ip : Bool
  display_advertising : Bool

/-- Per-render template context as the node observes it: the five
`google_analytics_varN` custom-variable pairs, the result of
`get_domain(context, 'google_analytics')`, the result of
`str(get_identity(...))` when the identity is not `None`, and the result
of `is_internal_ip(context, 'GOOGLE_ANALYTICS')`. -/
structure Context where
  var1 : Option (String × String)
  var2 : Option (String × String)
  var3 : Option (String × String)
  var4 : Option (String × String)
  var5 : Option (String × String)
  domain : Option String
  identity : Option String
  internal_ip : Bool

/-- Whitespace stripped by Python `float(str)` before parsing. -/
def isPySpace (c : Char) : Bool :=
  c = ' ' || c = '\t' || c = '\n' || c = '\x0b' || c = '\x0c' || c = '\r'

/-- Strip leading and trailing whitespace, as `float(str)` does. -/
def stripChars (cs : List Char) : List Char :=
  ((cs.dropWhile isPySpace).reverse.dropWhile isPySpace).reverse

/-- Consume the rest of a digit group: `digit (("_")? digit)*` after its
first digit; underscores are only allowed between digits. -/
def digitsRest : List Char → List Char
  | '_' :: c :: cs => if c.isDigit then digitsRest cs else '_' :: c :: cs
  | c :: cs => if c.isDigit then digitsRest cs else c :: cs
  | [] => []

/-- Consume a nonempty digit group; `none` when the input does not start
with a digit. -/
def digitPart : List Char → Option (List Char)
  | c :: cs => if c.isDigit then some (digitsRest cs) else none
  | [] => none

/-- Consume an optional exponent `("e"|"E") ("+"|"-")? digits`. When the
input does not start with `e`/`E` nothing is consumed. -/
def expPart : List Char → Option (List Char)
  | [] => some []
  | c :: cs =>
    if c = 'e' || c = 'E' then
      match cs with
      | s :: cs2 => if s = '+' || s = '-' then digitPart cs2 else digitPart (s :: cs2)
      | [] => none
    else some (c :: cs)

/-- Consume a decimal floating-point number: `digits ["." digits?] exp?`
or `"." digits exp?`. -/
def floatNumber (cs : List Char) : Option (List Char) :=
  match digitPart cs with
  | some rest =>
    match rest with
    | '.' :: cs2 => expPart ((digitPart cs2).getD cs2)
    | _ => expPart rest
  | none =>
    match cs with
    | '.' :: cs2 =>
      match digitPart cs2 with
      | some rest => expPart rest
      | none => none
    | _ => none

/-- Match a fixed lowercase word case-insensitively, returning the rest. -/
def matchCI : List Char → List Char → Option (List Char)
  | [], cs => some cs
  | _ :: _, [] => none
  | w :: ws, c :: cs => if c.toLower = w then matchCI ws cs else none

/-- Body of a float literal after the optional sign: `infinity`, `inf`,
`nan` (case-insensitive) or a decimal number, consuming all input. -/
def floatBody (cs : List Char) : Bool :=
  (matchCI ['i', 'n', 'f', 'i', 'n', 'i', 't', 'y'] cs == some [])
    || (matchCI ['i', 'n', 'f'] cs == some [])
    || (matchCI ['n', 'a', 'n'] cs == some [])
    || (floatNumber cs == some [])

/-- Whether Python `float(value)` succeeds on the string `value`: strip
whitespace, allow one leading sign, then a float body. This models the
`try: float(value) / except ValueError` test in `_get_custom_var_commands`. -/
def pyFloatParses (value : String) : Bool :=
  match stripChars value.toList with
  | [] => false
  | c :: rest => if c = '+' || c = '-' then floatBody rest else floatBody (c :: rest)

/-- Python `int(decimal.Decimal(q))` on an exact fraction: truncation
toward zero. -/
def pyInt (q : ℚ) : ℤ :=
  q.num.tdiv (q.den : ℤ)

/-- JSON-serializable values appearing in the `create_fields` dict:
strings, booleans and integers. -/
inductive JVal where
  | str : String → JVal
  | boolean : Bool → JVal
  | int : ℤ → JVal
  deriving DecidableEq

/-- Lowercase hexadecimal digit. -/
def hexDigit (n : Nat) : Char :=
  if n < 10 then Char.ofNat (48 + n) else Char.ofNat (87 + n)

/-- Four lowercase hexadecimal digits, most significant first. -/
def hex4 (n : Nat) : String :=
  String.mk [hexDigit (n / 4096 % 16), hexDigit (n / 256 % 16), hexDigit (n / 16 % 16),
    hexDigit (n % 16)]

/-- Escape one character the way `json.dumps` (default `ensure_ascii=True`)
does inside a string literal. -/
def jsonEscChar (c : Char) : String :=
  if c = '"' then "\\\""
  else if c = '\\' then "\\\\"
  else if c = '\n' then "\\n"
  else if c = '\t' then "\\t"
  else if c = '\r' then "\\r"
  else if c = '\x08' then "\\b"
  else if c = '\x0c' then "\\f"
  else if c.toNat < 32 then "\\u" ++ hex4 c.toNat
  else if c.toNat < 127 then String.singleton c
  else if c.toNat < 65536 then "\\u" ++ hex4 c.toNat
  else "\\u" ++ hex4 (55296 + (c.toNat - 65536) / 1024)
    ++ "\\u" ++ hex4 (56320 + (c.toNat - 65536) % 1024)

/-- A JSON string literal with its quotes. -/
def jsonString (s : String) : String :=
  "\"" ++ String.join (s.toList.map jsonEscChar) ++ "\""

/-- Serialize one field value as `json.dumps` does. -/
def jvalDumps : JVal → String
  | .str s => jsonString s
  | .boolean b => if b then "true" else "false"
  | .int n => toString n

/-- `json.dumps` on the `create_fields` dict, modelled as an
insertion-ordered association list (all keys the code inserts are
distinct, so a Python dict in insertion order is exactly this list). -/
def jsonDumps (fields : List (String × JVal)) : String :=
  "\x7b" ++ String.intercalate ", " (fields.map fun p => jsonString p.1 ++ ": " ++ jvalDumps p.2)
    ++ "\x7d"

/-- The module-level `SETUP_CODE` template applied to its three `format`
parameters; `\x7b`/`\x7d` are the literal braces written `{{`/`}}` in the
Python template and `\x27` is the apostrophe. -/
def SETUP_CODE (property_id create_fields commands : String) : String :=
  "\n<script>\n(function(i,s,o,g,r,a,m)\x7bi[\x27GoogleAnalyticsObject\x27]=r;i[r]=i[r]||function()\x7b\n(i[r].q=i[r].q||[]).push(arguments)\x7d,i[r].l=1*new Date();a=s.createElement(o),\nm=s.getElementsByTagName(o)[0];a.async=1;a.src=g;m.parentNode.insertBefore(a,m)\n\x7d)(window,document,\x27script\x27,\x27https://www.google-analytics.com/analytics.js\x27,\x27ga\x27);\n\nga(\x27create\x27, \x27"
    ++ property_id ++ "\x27, \x27auto\x27, " ++ create_fields ++ ");\n" ++ commands
    ++ "ga(\x27send\x27, \x27pageview\x27);\n</script>\n"

/-- The module-level `REQUIRE_DISPLAY_FEATURES` command string. -/
def REQUIRE_DISPLAY_FEATURES : String :=
  "ga(\x27require\x27, \x27displayfeatures\x27);\n"

/-- The module-level `CUSTOM_VAR_CODE` template applied to its two
`format` parameters. -/
def CUSTOM_VAR_CODE (name value : String) : String :=
  "ga(\x27set\x27, \x27" ++ name ++ "\x27, " ++ value ++ ");\n"

/-- The module-level `ANONYMIZE_IP_CODE` command string. -/
def ANONYMIZE_IP_CODE : String :=
  "ga(\x27set\x27, \x27anonymizeIp\x27, true);\n"

/-- The fixed placeholder `render` returns when no property ID is set. -/
def disabledPlaceholder : String :=
  "<!-- Google Analytics disabled due to no Property_ID -->"

/-- The `AnalyticalException` message raised for a missing domain. -/
def missingDomainMessage : String :=
  "tracking multiple domains with Google Analytics requires a domain name"

/-- `GoogleAnalyticsJsNode._get_domain_fields`: empty for single-domain
tracking; otherwise requires a resolved domain, adds `legacyCookieDomain`
and, for multiple-domain tracking, `allowLinker`. -/
def getDomainFields (s : Settings) (ctx : Context) : Except String (List (String × JVal)) :=
  if s.tracking_style = TRACK_SINGLE_DOMAIN then
    Except.ok []
  else
    match ctx.domain with
    | none => Except.error missingDomainMessage
    | some domain =>
      Except.ok (("legacyCookieDomain", JVal.str domain) ::
        (if s.tracking_style = TRACK_MULTIPLE_DOMAINS then [("allowLinker", JVal.boolean true)]
         else []))

/-- The `userId` field added by `_get_other_create_fields` when
`get_identity` yields a non-`None` identity. -/
def identityFields (ctx : Context) : List (String × JVal) :=
  match ctx.identity with
  | some uid => [("userId", JVal.str uid)]
  | none => []

/-- The `siteSpeedSampleRate` step of `_get_other_create_fields`:
`int(Decimal(value))` must lie in `[0, 100]`, else `AnalyticalException`. -/
def siteSpeedSampleRateFields (s : Settings) : Except String (List (String × JVal)) :=
  match s.site_speed_sample_rate with
  | none => Except.ok []
  | some q =>
    let value := pyInt q
    if 0 ≤ value ∧ value ≤ 100 then Except.ok [("siteSpeedSampleRate", JVal.int value)]
    else Except.error "\x27GOOGLE_ANALYTICS_SITE_SPEED_SAMPLE_RATE\x27 must be >= 0 and <= 100"

/-- The `sampleRate` step of `_get_other_create_fields`:
`int(Decimal(value))` must lie in `[0, 100]`, else `AnalyticalException`. -/
def sampleRateFields (s : Settings) : Except String (List (String × JVal)) :=
  match s.sample_rate with
  | none => Except.ok []
  | some q =>
    let value := pyInt q
    if 0 ≤ value ∧ value ≤ 100 then Except.ok [("sampleRate", JVal.int value)]
    else Except.error "\x27GOOGLE_ANALYTICS_SAMPLE_RATE\x27 must be >= 0 and <= 100"

/-- The `cookieExpires` step of `_get_other_create_fields`:
`int(Decimal(value))` must be nonnegative, else `AnalyticalException`. -/
def cookieExpiresFields (s : Settings) : Except String (List (String × JVal)) :=
  match s.cookie_expiration with
  | none => Except.ok []
  | some q =>
    let value := pyInt q
    if value < 0 then Except.error "\x27GOOGLE_ANALYTICS_COOKIE_EXPIRATION\x27 must be >= 0"
    else Except.ok [("cookieExpires", JVal.int value)]

/-- `GoogleAnalyticsJsNode._get_other_create_fields`: the `userId` field,
then the three numeric settings in source order; the first out-of-range
numeric setting aborts with its `AnalyticalException` message. -/
def getOtherCreateFields (s : Settings) (ctx : Context) :
    Except String (List (String × JVal)) :=
  match siteSpeedSampleRateFields s with
  | Except.error e => Except.error e
  | Except.ok ss =>
    match sampleRateFields s with
    | Except.error e => Except.error e
    | Except.ok sr =>
      match cookieExpiresFields s with
      | Except.error e => Except.error e
      | Except.ok ce => Except.ok (identityFields ctx ++ ss ++ sr ++ ce)

/-- The five custom-variable context slots
`google_analytics_var1 .. google_analytics_var5`, in index order. -/
def ctxVars (ctx : Context) : List (Option (String × String)) :=
  [ctx.var1, ctx.var2, ctx.var3, ctx.var4, ctx.var5]

/-- Value serialization in `_get_custom_var_commands`: the raw string when
`float(value)` succeeds, else the value wrapped in single quotes. -/
def serializeCustomVarValue (value : String) : String :=
  if pyFloatParses value then value else "\x27" ++ value ++ "\x27"

/-- The `CUSTOM_VAR_CODE` command emitted for one `(name, value)` pair. -/
def customVarCommand (p : String × String) : String :=
  CUSTOM_VAR_CODE p.1 (serializeCustomVarValue p.2)

/-- `GoogleAnalyticsJsNode._get_custom_var_commands`: scan slots 1..5 in
order, keep the pairs that are present, emit one command per pair. -/
def getCustomVarCommands (ctx : Context) : List String :=
  ((ctxVars ctx).filterMap id).map customVarCommand

/-- `GoogleAnalyticsJsNode._get_other_commands`: the anonymize-IP command
when `GOOGLE_ANALYTICS_ANONYMIZE_IP` is set. -/
def getOtherCommands (s : Settings) : List String :=
  if s.anonymize_ip then [ANONYMIZE_IP_CODE] else []

/-- The command list `render` assembles: custom-variable commands, then
the other commands, with `REQUIRE_DISPLAY_FEATURES` inserted at position 0
when `GOOGLE_ANALYTICS_DISPLAY_ADVERTISING` is set. -/
def renderCommands (s : Settings) (ctx : Context) : List String :=
  let commands := getCustomVarCommands ctx ++ getOtherCommands s
  if s.display_advertising then REQUIRE_DISPLAY_FEATURES :: commands else commands

/-- Modelled from the spec: the helper `disable_html` lives in
`analytical.utils`, which is not part of this source tree. The spec says
internal-traffic output is "disabled via an HTML comment wrapper" "while
preserving the generated text for visibility/debugging", so the snippet
is wrapped in an HTML comment naming the product and containing the
original html unchanged. -/
def disable_html (html product : String) : String :=
  "<!-- " ++ product ++ " disabled on internal IP address\n" ++ html ++ "\n-->"

/-- The html built by `render` before the internal-IP redaction step:
`SETUP_CODE` formatted with the property ID, the JSON dump of the domain
fields updated with the other create fields, and the joined commands. -/
def generatedHtml (s : Settings) (ctx : Context) (pid : String) : Except String String :=
  match getDomainFields s ctx with
  | Except.error e => Except.error e
  | Except.ok domainFields =>
    match getOtherCreateFields s ctx with
    | Except.error e => Except.error e
    | Except.ok otherFields =>
      Except.ok (SETUP_CODE pid (jsonDumps (domainFields ++ otherFields))
        (String.join (renderCommands s ctx)))

/-- `GoogleAnalyticsJsNode.render`: the disabled placeholder when the
property ID is falsy (`None` or the empty string), else the generated
html, run through `disable_html` when `is_internal_ip` holds. -/
def render (s : Settings) (ctx : Context) : Except String String :=
  match s.property_id with
  | none => Except.ok disabledPlaceholder
  | some pid =>
    if pid = "" then Except.ok disabledPlaceholder
    else
      match generatedHtml s ctx pid with
      | Except.error e => Except.error e
      | Except.ok html =>
        Except.ok (if ctx.internal_ip then disable_html html "Google Analytics" else html)

/-- A context with no custom variables, no domain, no identity, external
traffic. -/
def emptyContext : Context :=
  ⟨none, none, none, none, none, none, none, false⟩

/-- Settings with no property ID and every optional setting unset. -/
def noIdSettings : Settings :=
  ⟨none, TRACK_SINGLE_DOMAIN, none, none, none, false, false⟩

/-- Settings with property ID `UA-1-1`, multiple-domain tracking, every
other setting unset. -/
def multiDomainSettings : Settings :=
  ⟨some "UA-1-1", TRACK_MULTIPLE_DOMAINS, none, none, none, false, false⟩

/-- Settings with property ID `UA-1-1`, multiple-subdomain tracking,
every other setting unset. -/
def multiSubdomainSettings : Settings :=
  ⟨some "UA-1-1", TRACK_MULTIPLE_SUBDOMAINS, none, none, none, false, false⟩

/-- A context whose only datum is the resolved domain `example.com`. -/
def domainContext : Context :=
  ⟨none, none, none, none, none, some "example.com", none, false⟩

/-- Settings with property ID `UA-1-1`, single-domain tracking, sample
rate 50, every other setting unset. -/
def sampleRateSettings : Settings :=
  ⟨some "UA-1-1", TRACK_SINGLE_DOMAIN, none, some 50, none, false, false⟩

/-- Settings with property ID `UA-1-1`, single-domain tracking, both the
display-advertising and the anonymize-IP flags set. -/
def displaySettings : Settings :=
  ⟨some "UA-1-1", TRACK_SINGLE_DOMAIN, none, none, none, true, true⟩

/-- Settings with property ID `UA-1-1` and every optional setting unset. -/
def basicSettings : Settings :=
  ⟨some "UA-1-1", TRACK_SINGLE_DOMAIN, none, none, none, false, false⟩

/-- A context carrying nothing but an internal-traffic classification. -/
def internalContext : Context :=
  ⟨none, none, none, none, none, none, none, true⟩

/-- The html `render` generates for `basicSettings` before redaction. -/
def basicHtml : String :=
  SETUP_CODE "UA-1-1" (jsonDumps []) (String.join [])

/-- Settings with property ID `UA-1-1`, single-domain tracking, sample
rate 100.5 (the fraction 201/2), every other setting unset. -/
def fractionalSettings : Settings :=
  ⟨some "UA-1-1", TRACK_SINGLE_DOMAIN, none, some (201/2 : ℚ), none, false, false⟩

/-- C1: for every settings snapshot in which no property ID is set and
for every render context, `render` returns exactly the fixed disabled
placeholder string `<!-- Google Analytics disabled due to no Property_ID -->`. -/
theorem render_without_property_id_is_placeholder (s : Settings) (ctx : Context)
    (h : s.property_id = none) :
    render s ctx = Except.ok disabledPlaceholder := by
  simp [render, h]

theorem render_without_property_id_is_placeholder_witness :
    noIdSettings.property_id = none ∧
      render noIdSettings emptyContext = Except.ok disabledPlaceholder :=
  ⟨rfl, render_without_property_id_is_placeholder noIdSettings emptyContext rfl⟩

/-- C2: a context with custom-variable 1 = `("plan", "gold")` and
custom-variable 2 = `("score", "42")` yields exactly two `set` commands in
index order, the first quoting `gold` and the second with the unquoted
literal `42`; and in general the command for a pair uses the value
unquoted exactly when `float(value)` succeeds, else single-quoted. -/
theorem custom_var_commands_quoting :
    (∀ d idn b,
      getCustomVarCommands
          ⟨some ("plan", "gold"), some ("score", "42"), none, none, none, d, idn, b⟩ =
        ["ga(\x27set\x27, \x27plan\x27, \x27gold\x27);\n",
         "ga(\x27set\x27, \x27score\x27, 42);\n"])
    ∧ ∀ n v, customVarCommand (n, v) =
        CUSTOM_VAR_CODE n (if pyFloatParses v then v else "\x27" ++ v ++ "\x27") := by
  constructor
  · intro d idn b
    rfl
  · intro n v
    rfl

/-- C3: with the other numeric settings unset, a configured sample rate
whose integer conversion lies in `[0, 100]` produces a create-fields
mapping containing `sampleRate` at that integer, and one whose conversion
lies outside `[0, 100]` makes construction fail with the
`AnalyticalException` message instead of producing a field. -/
theorem sample_rate_range_check (q : ℚ) (s : Settings) (ctx : Context)
    (hss : s.site_speed_sample_rate = none) (hce : s.cookie_expiration = none)
    (hsr : s.sample_rate = some q) :
    (0 ≤ pyInt q ∧ pyInt q ≤ 100 →
      ∃ fs, getOtherCreateFields s ctx = Except.ok fs ∧
        ("sampleRate", JVal.int (pyInt q)) ∈ fs)
    ∧ (¬(0 ≤ pyInt q ∧ pyInt q ≤ 100) →
      getOtherCreateFields s ctx =
        Except.error "\x27GOOGLE_ANALYTICS_SAMPLE_RATE\x27 must be >= 0 and <= 100") := by
  constructor
  · intro hin
    refine ⟨identityFields ctx ++ [("sampleRate", JVal.int (pyInt q))], ?_, by simp⟩
    simp [getOtherCreateFields, siteSpeedSampleRateFields, sampleRateFields,
      cookieExpiresFields, hss, hce, hsr, hin]
  · intro hout
    simp [getOtherCreateFields, siteSpeedSampleRateFields, sampleRateFields,
      cookieExpiresFields, hss, hce, hsr, hout]

theorem sample_rate_range_check_witness :
    (0 ≤ pyInt 50 ∧ pyInt 50 ≤ 100) ∧
      ∃ fs, getOtherCreateFields sampleRateSettings emptyContext = Except.ok fs ∧
        ("sampleRate", JVal.int (pyInt 50)) ∈ fs :=
  ⟨by decide,
    (sample_rate_range_check 50 sampleRateSettings emptyContext rfl rfl rfl).1 (by decide)⟩

/-- C4: with the resolvable domain `example.com`, multiple-domain
tracking yields exactly `legacyCookieDomain = "example.com"` and
`allowLinker = true`; multiple-subdomain tracking yields only
`legacyCookieDomain`; single-domain tracking yields neither field. -/
theorem domain_fields_by_tracking_style :
    (∀ s ctx, s.tracking_style = TRACK_MULTIPLE_DOMAINS → ctx.domain = some "example.com" →
      getDomainFields s ctx =
        Except.ok [("legacyCookieDomain", JVal.str "example.com"),
          ("allowLinker", JVal.boolean true)])
    ∧ (∀ s ctx, s.tracking_style = TRACK_MULTIPLE_SUBDOMAINS →
        ctx.domain = some "example.com" →
      getDomainFields s ctx = Except.ok [("legacyCookieDomain", JVal.str "example.com")])
    ∧ (∀ s ctx, s.tracking_style = TRACK_SINGLE_DOMAIN →
      getDomainFields s ctx = Except.ok []) := by
  refine ⟨?_, ?_, ?_⟩
  · intro s ctx h1 h2
    simp [getDomainFields, h1, h2, TRACK_MULTIPLE_DOMAINS, TRACK_SINGLE_DOMAIN]
  · intro s ctx h1 h2
    simp [getDomainFields, h1, h2, TRACK_MULTIPLE_SUBDOMAINS, TRACK_MULTIPLE_DOMAINS,
      TRACK_SINGLE_DOMAIN]
  · intro s ctx h1
    simp [getDomainFields, h1, TRACK_SINGLE_DOMAIN]

theorem domain_fields_by_tracking_style_witness :
    getDomainFields multiDomainSettings domainContext =
        Except.ok [("legacyCookieDomain", JVal.str "example.com"),
          ("allowLinker", JVal.boolean true)]
      ∧ getDomainFields multiSubdomainSettings domainContext =
        Except.ok [("legacyCookieDomain", JVal.str "example.com")] :=
  ⟨domain_fields_by_tracking_style.1 multiDomainSettings domainContext rfl rfl,
    domain_fields_by_tracking_style.2.1 multiSubdomainSettings domainContext rfl rfl⟩

/-- C5: when the display-advertising flag is set together with the
anonymize-IP flag, the command sequence assembled by `render` starts with
the `require displayfeatures` command, and both the anonymize-IP command
and every custom-variable command lie strictly after it. -/
theorem display_features_command_first (s : Settings) (ctx : Context)
    (hd : s.display_advertising = true) (ha : s.anonymize_ip = true) :
    ∃ rest, renderCommands s ctx = REQUIRE_DISPLAY_FEATURES :: rest ∧
      ANONYMIZE_IP_CODE ∈ rest ∧ ∀ c ∈ getCustomVarCommands ctx, c ∈ rest := by
  refine ⟨getCustomVarCommands ctx ++ getOtherCommands s, ?_, ?_, ?_⟩
  · simp [renderCommands, hd]
  · simp [getOtherCommands, ha]
  · intro c hc
    exact List.mem_append_left _ hc

theorem display_features_command_first_witness :
    ∃ rest, renderCommands displaySettings emptyContext = REQUIRE_DISPLAY_FEATURES :: rest ∧
      ANONYMIZE_IP_CODE ∈ rest ∧ ∀ c ∈ getCustomVarCommands emptyContext, c ∈ rest :=
  display_features_command_first displaySettings emptyContext rfl rfl

/-- C6: for multiple-subdomain or multiple-domain tracking style, when
the domain resolver yields nothing for the context, building the domain
fields fails with the `AnalyticalException` message about the missing
domain name, and no create-fields result is produced. -/
theorem multi_domain_missing_domain_error (s : Settings) (ctx : Context)
    (hstyle : s.tracking_style = TRACK_MULTIPLE_SUBDOMAINS ∨
      s.tracking_style = TRACK_MULTIPLE_DOMAINS)
    (hdom : ctx.domain = none) :
    getDomainFields s ctx = Except.error missingDomainMessage ∧
      ∀ fs, getDomainFields s ctx ≠ Except.ok fs := by
  have h : getDomainFields s ctx = Except.error missingDomainMessage := by
    rcases hstyle with h | h <;>
      simp [getDomainFields, h, hdom, TRACK_MULTIPLE_SUBDOMAINS, TRACK_MULTIPLE_DOMAINS,
        TRACK_SINGLE_DOMAIN]
  refine ⟨h, fun fs hfs => ?_⟩
  rw [h] at hfs
  cases hfs

theorem multi_domain_missing_domain_error_witness :
    getDomainFields multiSubdomainSettings emptyContext =
        Except.error missingDomainMessage ∧
      ∀ fs, getDomainFields multiSubdomainSettings emptyContext ≠ Except.ok fs :=
  multi_domain_missing_domain_error multiSubdomainSettings emptyContext (Or.inl rfl) rfl

/-- C7: the custom-variable command builder is total: every present pair
yields exactly one command (one per present slot, each present pair's
command in the output), and a value on which `float(value)` fails is
coerced to a single-quoted string literal rather than rejected. -/
theorem custom_var_commands_total :
    (∀ ctx, (getCustomVarCommands ctx).length = ((ctxVars ctx).filterMap id).length ∧
      ∀ p ∈ (ctxVars ctx).filterMap id, customVarCommand p ∈ getCustomVarCommands ctx)
    ∧ ∀ n v, pyFloatParses v = false →
      customVarCommand (n, v) = CUSTOM_VAR_CODE n ("\x27" ++ v ++ "\x27") := by
  constructor
  · intro ctx
    constructor
    · simp [getCustomVarCommands]
    · intro p hp
      exact List.mem_map_of_mem _ hp
  · intro n v h
    simp [customVarCommand, serializeCustomVarValue, h]

theorem custom_var_commands_total_witness :
    pyFloatParses "gold" = false ∧
      customVarCommand ("plan", "gold") = CUSTOM_VAR_CODE "plan" "\x27gold\x27" :=
  ⟨by decide, custom_var_commands_total.2 "plan" "gold" (by decide)⟩

/-- C8: with a property ID set, when the context is classified as
internal traffic `render` returns the generated script wrapped by
`disable_html` — a wrapper that still contains the originally generated
script text — and when it is not, `render` returns the generated script
unchanged. -/
theorem internal_traffic_wrapping (s : Settings) (ctx : Context) (pid html : String)
    (hpid : s.property_id = some pid) (hne : pid ≠ "")
    (hgen : generatedHtml s ctx pid = Except.ok html) :
    (ctx.internal_ip = true →
      render s ctx = Except.ok (disable_html html "Google Analytics") ∧
        ∃ pre post, disable_html html "Google Analytics" = pre ++ html ++ post)
    ∧ (ctx.internal_ip = false → render s ctx = Except.ok html) := by
  constructor
  · intro hint
    refine ⟨?_, "<!-- Google Analytics disabled on internal IP address\n", "\n-->", rfl⟩
    simp [render, hpid, hne, hgen, hint]
  · intro hint
    simp [render, hpid, hne, hgen, hint]

theorem internal_traffic_wrapping_witness :
    basicSettings.property_id = some "UA-1-1" ∧
      generatedHtml basicSettings internalContext "UA-1-1" = Except.ok basicHtml ∧
      render basicSettings internalContext =
        Except.ok (disable_html basicHtml "Google Analytics") :=
  ⟨rfl, rfl,
    ((internal_traffic_wrapping basicSettings internalContext "UA-1-1" basicHtml rfl
      (by decide) rfl).1 rfl).1⟩

/-- C9: custom-variable indices need not be contiguous: with variables 1
and 3 present and 2, 4, 5 absent, the builder skips the missing slot and
emits exactly the two commands for slots 1 and 3 in that order. -/
theorem custom_var_indices_skip_missing (p1 p3 : String × String)
    (d idn : Option String) (b : Bool) :
    getCustomVarCommands ⟨some p1, none, some p3, none, none, d, idn, b⟩ =
      [customVarCommand p1, customVarCommand p3] :=
  rfl

/-- C10: numeric settings are converted by truncation toward zero before
the range check — `100.5` truncates to `100` and `-1.5` to `-1` — so a
fractional sample rate whose truncation lies in `[0, 100]` is accepted
with the truncated integer stored in the `sampleRate` field. -/
theorem numeric_settings_truncate_toward_zero :
    pyInt (201/2 : ℚ) = 100 ∧ pyInt (-(3/2) : ℚ) = -1 ∧
    ∀ (q : ℚ) (s : Settings) (ctx : Context),
      s.site_speed_sample_rate = none → s.cookie_expiration = none →
      s.sample_rate = some q → ctx.identity = none →
      0 ≤ pyInt q → pyInt q ≤ 100 →
      getOtherCreateFields s ctx = Except.ok [("sampleRate", JVal.int (pyInt q))] := by
  refine ⟨by norm_num [pyInt]; decide, by norm_num [pyInt]; decide, ?_⟩
  intro q s ctx h1 h2 h3 h4 h5 h6
  simp [getOtherCreateFields, siteSpeedSampleRateFields, sampleRateFields,
    cookieExpiresFields, identityFields, h1, h2, h3, h4, h5, h6]

theorem numeric_settings_truncate_toward_zero_witness :
    pyInt (201/2 : ℚ) = 100 ∧
      getOtherCreateFields fractionalSettings emptyContext =
        Except.ok [("sampleRate", JVal.int (pyInt (201/2 : ℚ)))] :=
  ⟨by norm_num [pyInt]; decide,
    numeric_settings_truncate_toward_zero.2.2 (201/2 : ℚ) fractionalSettings emptyContext
      rfl rfl rfl rfl (by norm_num [pyInt]; decide) (by norm_num [pyInt]; decide)⟩

end GoogleAnalyticsJs
